import Mathlib

/-!
Verification development for the Jeopardy board application (`jeopardy1.py`).

We shallowly embed the game-state core of the program: the data model
(`MediaItem`, `Question`, `Category`, `Board`), the JSON serializer and
deserializer, the session state (used question ids, active question, reveal
flag, scoreboard) and the editor / play intents acting on it.

Conventions of the embedding:
* Python `int` is `Int`, Python `str` is `String`.
* JSON documents are modelled by the `Json` value type below.  The program
  serializes via `json.dumps(asdict(board))` and parses via `json.loads`;
  since `json.loads ∘ json.dumps` is the identity on such values, the string
  layer is abstracted away and the serializer maps a `Board` to its JSON
  value directly.
* Python exceptions raised along the deserialization path are modelled by
  the explicit error type `PyErr` (`KeyError`, `TypeError`, `ValueError`),
  carried in `Except`.
* Python `set` is `Finset String`; Python `dict` is an insertion-ordered
  association list (`List (key × value)`), matching `dict` semantics of
  `setdefault` (append), `del`/`pop` (remove) and in-place update.
-/

/-- JSON values as produced by `json.loads` on documents of this program
(no floats occur in the board schema). -/
inductive Json where
  | null : Json
  | bool : Bool → Json
  | int : Int → Json
  | str : String → Json
  | arr : List Json → Json
  | obj : List (String × Json) → Json

/-- Python exceptions that can be raised while loading a board document. -/
inductive PyErr where
  | keyError : String → PyErr
  | typeError : String → PyErr
  | valueError : String → PyErr
deriving DecidableEq, Repr

/-- The Python class name of the raised exception. -/
def PyErr.clsName : PyErr → String
  | .keyError _ => "KeyError"
  | .typeError _ => "TypeError"
  | .valueError _ => "ValueError"

/-- `@dataclass MediaItem`: an image/video/audio attachment, either an
uploaded payload (base64 text in `b64`) or a remote `url`. -/
structure MediaItem where
  kind : String
  source : String
  filename : Option String := none
  mime : Option String := none
  b64 : Option String := none
  url : Option String := none
deriving DecidableEq, Repr

/-- `@dataclass Question`. -/
structure Question where
  id : String
  points : Int
  prompt : String
  answer : String
  media : List MediaItem
  timer_seconds : Int := 30
deriving DecidableEq, Repr

/-- `@dataclass Category`. -/
structure Category where
  id : String
  name : String
  questions : List Question
deriving DecidableEq, Repr

/-- `@dataclass Board`. -/
structure Board where
  title : String
  categories : List Category
deriving DecidableEq, Repr

/-- `new_board()`. -/
def new_board : Board := { title := "Jeopardy!", categories := [] }

/-- `asdict` renders an `Optional[str]` field as a JSON string or `null`. -/
def optStrJson : Option String → Json
  | none => Json.null
  | some s => Json.str s

/-- `asdict` of a `MediaItem` (dataclass field order). -/
def MediaItem.toJson (m : MediaItem) : Json :=
  Json.obj [("kind", Json.str m.kind), ("source", Json.str m.source),
            ("filename", optStrJson m.filename), ("mime", optStrJson m.mime),
            ("b64", optStrJson m.b64), ("url", optStrJson m.url)]

/-- `asdict` of a `Question` (dataclass field order). -/
def Question.toJson (q : Question) : Json :=
  Json.obj [("id", Json.str q.id), ("points", Json.int q.points),
            ("prompt", Json.str q.prompt), ("answer", Json.str q.answer),
            ("media", Json.arr (q.media.map MediaItem.toJson)),
            ("timer_seconds", Json.int q.timer_seconds)]

/-- `asdict` of a `Category`. -/
def Category.toJson (c : Category) : Json :=
  Json.obj [("id", Json.str c.id), ("name", Json.str c.name),
            ("questions", Json.arr (c.questions.map Question.toJson))]

/-- `serialize_board`: `json.dumps(asdict(board))`, with the printed string
identified with its JSON value (see module docstring). -/
def serialize_board (board : Board) : Json :=
  Json.obj [("title", Json.str board.title),
            ("categories", Json.arr (board.categories.map Category.toJson))]

/-- Python `d[k]` on a parsed JSON object: raises `KeyError` when the key is
missing, `TypeError` when the value is not an object. -/
def Json.getItem (j : Json) (k : String) : Except PyErr Json :=
  match j with
  | Json.obj kvs =>
    match kvs.lookup k with
    | some v => Except.ok v
    | none => Except.error (PyErr.keyError k)
  | _ => Except.error (PyErr.typeError "object is not subscriptable")

/-- Python `d.get(k, default)` on a parsed JSON object. -/
def Json.getD (j : Json) (k : String) (d : Json) : Except PyErr Json :=
  match j with
  | Json.obj kvs =>
    match kvs.lookup k with
    | some v => Except.ok v
    | none => Except.ok d
  | _ => Except.error (PyErr.typeError "object has no attribute get")

/-- Reading a JSON value into a `str`-typed dataclass field.  (Python being
dynamically typed would store any value; the typed embedding requires the
string the schema prescribes, which holds of every serialized board.) -/
def Json.asStr : Json → Except PyErr String
  | Json.str s => Except.ok s
  | _ => Except.error (PyErr.typeError "expected str")

/-- Reading a JSON value into an `Optional[str]` field (`null` ↦ `None`). -/
def Json.asOptStr : Json → Except PyErr (Option String)
  | Json.null => Except.ok none
  | Json.str s => Except.ok (some s)
  | _ => Except.error (PyErr.typeError "expected str or null")

/-- Python `int(x)` on a parsed JSON value: identity on ints, truncation of
bools, string parsing (`ValueError` on failure), `TypeError` otherwise. -/
def pyInt : Json → Except PyErr Int
  | Json.int n => Except.ok n
  | Json.bool b => Except.ok (if b then 1 else 0)
  | Json.str s =>
    match s.trim.toInt? with
    | some n => Except.ok n
    | none => Except.error (PyErr.valueError "invalid literal for int")
  | _ => Except.error (PyErr.typeError "int() argument")

/-- Iterating a JSON value as a Python list. -/
def Json.asArr : Json → Except PyErr (List Json)
  | Json.arr xs => Except.ok xs
  | _ => Except.error (PyErr.typeError "object is not iterable")

/-- Left-to-right effectful map, as a Python list comprehension: the first
raised exception propagates. -/
def listMapE (f : α → Except PyErr β) : List α → Except PyErr (List β)
  | [] => Except.ok []
  | x :: xs => do
    let y ← f x
    let ys ← listMapE f xs
    pure (y :: ys)

/-- `to_media` inside `deserialize_board`. -/
def to_media (j : Json) : Except PyErr MediaItem := do
  let kind ← (← j.getItem "kind").asStr
  let source ← (← j.getItem "source").asStr
  let filename ← (← j.getD "filename" Json.null).asOptStr
  let mime ← (← j.getD "mime" Json.null).asOptStr
  let b64 ← (← j.getD "b64" Json.null).asOptStr
  let url ← (← j.getD "url" Json.null).asOptStr
  pure { kind := kind, source := source, filename := filename,
         mime := mime, b64 := b64, url := url }

/-- `to_q` inside `deserialize_board`. -/
def to_q (j : Json) : Except PyErr Question := do
  let id ← (← j.getItem "id").asStr
  let points ← pyInt (← j.getItem "points")
  let prompt ← (← j.getItem "prompt").asStr
  let answer ← (← j.getItem "answer").asStr
  let media ← listMapE to_media (← (← j.getD "media" (Json.arr [])).asArr)
  let timer ← pyInt (← j.getD "timer_seconds" (Json.int 30))
  pure { id := id, points := points, prompt := prompt, answer := answer,
         media := media, timer_seconds := timer }

/-- `to_cat` inside `deserialize_board`. -/
def to_cat (j : Json) : Except PyErr Category := do
  let id ← (← j.getItem "id").asStr
  let name ← (← j.getItem "name").asStr
  let questions ← listMapE to_q (← (← j.getD "questions" (Json.arr [])).asArr)
  pure { id := id, name := name, questions := questions }

/-- `deserialize_board`: `json.loads` plus reconstruction of the dataclasses,
with the input string identified with its parsed JSON value.  `raw.get` on a
non-object raises (`AttributeError` in Python, folded into `TypeError` here);
any raised `PyErr` models the exception propagating out of the function. -/
def deserialize_board (j : Json) : Except PyErr Board := do
  let title ← (← j.getD "title" (Json.str "Jeopardy!")).asStr
  let categories ← listMapE to_cat (← (← j.getD "categories" (Json.arr [])).asArr)
  pure { title := title, categories := categories }

/-- Inner loop of `find_question`: first question of the list whose `id`
matches. -/
def find_in_questions (qid : String) : List Question → Option Question
  | [] => none
  | q :: qs => if q.id = qid then some q else find_in_questions qid qs

/-- Outer loop of `find_question` over the category list. -/
def find_question_cats (qid : String) : List Category → Option (Category × Question)
  | [] => none
  | c :: cs =>
    match find_in_questions qid c.questions with
    | some q => some (c, q)
    | none => find_question_cats qid cs

/-- `find_question(board, qid)`: the owning category and the question, or
`None`. -/
def find_question (board : Board) (qid : String) : Option (Category × Question) :=
  find_question_cats qid board.categories

/-- `st.session_state`: the session-scoped mutable state the program keeps
(`ensure_state`), together with the board it acts on. -/
structure SessionState where
  board : Board
  used_qids : Finset String
  active_qid : Option String
  reveal_answer : Bool
  scores : List (String × Int)
  team_colors : List (String × String)
deriving DecidableEq

/-- The "Remove" category button handler (`sidebar_editor`): it first
rebuilds `used_qids` keeping the ids still found on the *current* board —
which still contains the category being removed — and only then drops the
category from `board.categories`.  `active_qid` is not touched. -/
def remove_category (st : SessionState) (cid : String) : SessionState :=
  let used := st.used_qids.filter (fun qid => (find_question st.board qid).isSome)
  { st with
    used_qids := used,
    board := { st.board with
               categories := st.board.categories.filter (fun c => c.id ≠ cid) } }

/-- The "Delete Question" button handler (`sidebar_editor`), acting on the
question selected in the edit expander: it filters the question out of its
owning category's list and discards its id from `used_qids`.  `active_qid`
is not touched. -/
def remove_question (st : SessionState) (qid : String) : SessionState :=
  match find_question st.board qid with
  | none => st
  | some (cat, q) =>
    { st with
      board := { st.board with
                 categories := st.board.categories.map (fun c =>
                   if c.id = cat.id then
                     { c with questions := c.questions.filter (fun qq => qq.id ≠ q.id) }
                   else c) },
      used_qids := st.used_qids.erase q.id }

/-- Whether a question's cell renders as a disabled button
(`used = q.id in st.session_state.used_qids` in `render_board`). -/
def question_disabled (st : SessionState) (qid : String) : Bool :=
  qid ∈ st.used_qids

/-- Pressing an enabled question button (`render_board`): sets the active
question and hides the answer.  A used question renders a disabled button,
so the intent is unavailable for it (modelled as the identity). -/
def select_question (st : SessionState) (qid : String) : SessionState :=
  if qid ∈ st.used_qids then st
  else { st with active_qid := some qid, reveal_answer := false }

/-- The "Mark Used" button handler (`render_board`). -/
def mark_used (st : SessionState) (qid : String) : SessionState :=
  { st with used_qids := insert qid st.used_qids,
            active_qid := none, reveal_answer := false }

/-- The "Reset Used Questions" button handler (`render_board`). -/
def reset_used (st : SessionState) : SessionState :=
  { st with used_qids := ∅, active_qid := none, reveal_answer := false }

/-- Replace the first question of the list whose `id` matches (the object
`find_question` aliases) by its image under `f`. -/
def update_question_in_list (qid : String) (f : Question → Question) :
    List Question → List Question
  | [] => []
  | q :: qs => if q.id = qid then f q :: qs else q :: update_question_in_list qid f qs

/-- Apply `f` to the question `find_question` finds: the first matching
question of the first category containing one. -/
def update_question_in_board (qid : String) (f : Question → Question) :
    List Category → List Category
  | [] => []
  | c :: cs =>
    match find_in_questions qid c.questions with
    | some _ => { c with questions := update_question_in_list qid f c.questions } :: cs
    | none => c :: update_question_in_board qid f cs

/-- The "Start Timer" handler (`render_board`), which runs only for the
active question: it writes the chosen duration into the question object
(`q.timer_seconds = int(timer_val)`), runs the blocking countdown loop to
zero, and on expiry adds the id to `used_qids` and clears
`active_qid`/`reveal_answer`.  The loop always reaches zero, so its end
state is part of the handler's effect; the per-second display updates have
no further bearing on the state. -/
def start_timer (st : SessionState) (timer_val : Int) : SessionState :=
  match st.active_qid with
  | none => st
  | some qid =>
    match find_question st.board qid with
    | none => st
    | some _ =>
      { st with
        board := { st.board with
                   categories := update_question_in_board qid
                     (fun q => { q with timer_seconds := timer_val })
                     st.board.categories },
        used_qids := insert qid st.used_qids,
        active_qid := none, reveal_answer := false }

/-- The board-upload handler (`sidebar_editor`): deserialize the uploaded
document; on success replace `st.session_state["board"]`, on any raised
exception show `"Failed to load board: …"` and leave the state unchanged. -/
def load_board (st : SessionState) (doc : Json) : SessionState × Option String :=
  match deserialize_board doc with
  | Except.ok b => ({ st with board := b }, none)
  | Except.error e => (st, some ("Failed to load board: " ++ e.clsName))

/-- `_add_team` (`sidebar_scoreboard`): strip the name; if non-empty and not
already scored, `setdefault` a 0 score and the chosen color. -/
def add_team (st : SessionState) (name color : String) : SessionState :=
  let n := name.trim
  if n ≠ "" ∧ st.scores.lookup n = none then
    { st with
      scores := st.scores ++ [(n, 0)],
      team_colors := if st.team_colors.lookup n = none
                     then st.team_colors ++ [(n, color)] else st.team_colors }
  else st

/-- `inc_score(team, delta)`: in-place `scores[team] += delta` when the team
is present, otherwise nothing happens. -/
def inc_score (st : SessionState) (team : String) (delta : Int) : SessionState :=
  if (st.scores.lookup team).isSome then
    { st with scores := st.scores.map (fun kv =>
        if kv.1 = team then (kv.1, kv.2 + delta) else kv) }
  else st

/-- `remove_team(team)`: `del scores[team]` and `team_colors.pop(team, None)`
when the team is present, otherwise nothing happens. -/
def remove_team (st : SessionState) (team : String) : SessionState :=
  if (st.scores.lookup team).isSome then
    { st with scores := st.scores.filter (fun kv => kv.1 ≠ team),
              team_colors := st.team_colors.filter (fun kv => kv.1 ≠ team) }
  else st

/-- The ordering `sorted(…, key=lambda q: q.points, reverse=True)` sorts by:
`a` may precede `b` iff `a.points ≥ b.points`. -/
def points_desc (a b : Question) : Bool := decide (b.points ≤ a.points)

/-- `render_board`'s display order of a category
(`sorted(c.questions, key=lambda q: q.points, reverse=True)`): Python's
stable sort with the comparison reversed, i.e. a stable merge sort under
`points_desc`. -/
def display_order (c : Category) : List Question :=
  c.questions.mergeSort points_desc

/-- `render_board` builds the sorted per-category rows (`sorted_qs`) from
fresh copies; the board itself is read, never written, by the grid render. -/
def render_sorted (b : Board) : Board × List (List Question) :=
  (b, b.categories.map display_order)

/-! ## Serializer round-trip (C1, C10, C4) -/

theorem asOptStr_optStr (o : Option String) : (optStrJson o).asOptStr = Except.ok o := by
  cases o <;> rfl

theorem to_media_toJson (m : MediaItem) : to_media m.toJson = Except.ok m := by
  cases m with
  | mk kind source filename mime b64 url =>
    cases filename <;> cases mime <;> cases b64 <;> cases url <;> rfl

theorem listMapE_map_ok {β : Type} (f : β → Json) (g : Json → Except PyErr β)
    (h : ∀ x : β, g (f x) = Except.ok x) (xs : List β) :
    listMapE g (xs.map f) = Except.ok xs := by
  induction xs with
  | nil => rfl
  | cons x xs ih => simp [listMapE, h, ih, bind, Except.bind, pure, Except.pure]

theorem to_q_toJson (q : Question) : to_q q.toJson = Except.ok q := by
  cases q with
  | mk id points prompt answer media timer =>
    have h := listMapE_map_ok MediaItem.toJson to_media to_media_toJson media
    simp [to_q, Question.toJson, Json.getItem, Json.getD, Json.asStr, Json.asArr,
          pyInt, List.lookup, h, bind, Except.bind, pure, Except.pure]

theorem to_cat_toJson (c : Category) : to_cat c.toJson = Except.ok c := by
  cases c with
  | mk id name questions =>
    have h := listMapE_map_ok Question.toJson to_q to_q_toJson questions
    simp [to_cat, Category.toJson, Json.getItem, Json.getD, Json.asStr, Json.asArr,
          List.lookup, h, bind, Except.bind, pure, Except.pure]

/-- C1: for every board `b` — any title, categories, questions and media
items (upload items with base64 payloads as well as url items) —
`deserialize_board (serialize_board b)` succeeds and returns `b` itself,
hence agrees with `b` on every field: title, category ids/names/order,
question ids/points/prompt/answer/timer_seconds/order, and media
kind/source/filename/mime/b64/url values. -/
theorem deserialize_serialize_roundtrip (b : Board) :
    deserialize_board (serialize_board b) = Except.ok b := by
  cases b with
  | mk title categories =>
    have h := listMapE_map_ok Category.toJson to_cat to_cat_toJson categories
    simp [deserialize_board, serialize_board, Json.getItem, Json.getD, Json.asStr,
          Json.asArr, List.lookup, h, bind, Except.bind, pure, Except.pure]

/-- C10: a document that parses as a JSON object is accepted by
`deserialize_board` even when `title` and `categories` are absent: the
defaults `"Jeopardy!"` and the empty category list (i.e. `new_board`) are
substituted and no missing-field error is reported. -/
theorem deserialize_board_defaults (kvs : List (String × Json))
    (ht : kvs.lookup "title" = none) (hc : kvs.lookup "categories" = none) :
    deserialize_board (Json.obj kvs) = Except.ok new_board := by
  simp [deserialize_board, Json.getD, ht, hc, Json.asStr, Json.asArr, listMapE,
        bind, Except.bind, pure, Except.pure, new_board]

/-- Witness for C10: the empty JSON object deserializes to the default
board. -/
theorem deserialize_board_defaults_witness :
    ([] : List (String × Json)).lookup "title" = none ∧
    ([] : List (String × Json)).lookup "categories" = none ∧
    deserialize_board (Json.obj []) = Except.ok new_board :=
  ⟨rfl, rfl, deserialize_board_defaults [] rfl rfl⟩

/-- A board document whose single question lacks the required `id` field. -/
def malformed_doc : Json :=
  Json.obj
    [("title", Json.str "My Board"),
     ("categories", Json.arr
       [Json.obj
         [("id", Json.str "c1"), ("name", Json.str "History"),
          ("questions", Json.arr
            [Json.obj
              [("points", Json.int 100), ("prompt", Json.str "Q1"),
               ("answer", Json.str "A1")]])]])]

/-- Counterexample to C4: on a document whose question lacks `id`, the
deserializer raises Python's plain `KeyError` — an unstructured fault
propagating out of `q['id']` — not a structured `MalformedDocumentError`
(no such error kind exists anywhere in the program). -/
theorem deserialize_missing_id_keyerror :
    deserialize_board malformed_doc = Except.error (PyErr.keyError "id") ∧
    (PyErr.keyError "id").clsName = "KeyError" ∧
    (PyErr.keyError "id").clsName ≠ "MalformedDocumentError" :=
  ⟨rfl, rfl, by decide⟩

/-- C4 (amended): loading a malformed document fails with whatever Python
exception the deserializer raised (a plain `KeyError` for a missing field),
caught by the handler's blanket `except Exception` and reported as an error
message; the previously loaded in-memory board — indeed the whole session
state — is left completely unchanged, so load is all-or-nothing. -/
theorem load_board_all_or_nothing (st : SessionState) (doc : Json) (e : PyErr)
    (h : deserialize_board doc = Except.error e) :
    load_board st doc = (st, some ("Failed to load board: " ++ e.clsName)) := by
  simp [load_board, h]

/-- A session state with no teams and an untouched default board. -/
def st0 : SessionState :=
  { board := new_board, used_qids := ∅, active_qid := none,
    reveal_answer := false, scores := [], team_colors := [] }

/-- Witness for C4's amended theorem at the concrete malformed document. -/
theorem load_board_all_or_nothing_witness :
    deserialize_board malformed_doc = Except.error (PyErr.keyError "id") ∧
    load_board st0 malformed_doc =
      (st0, some ("Failed to load board: " ++ (PyErr.keyError "id").clsName)) :=
  ⟨rfl, load_board_all_or_nothing st0 malformed_doc (PyErr.keyError "id") rfl⟩

/-! ## Editor operations and session references (C2, C3) -/

/-- A one-question board in mid-play: the question is both used and active. -/
def q1 : Question :=
  { id := "q1", points := 100, prompt := "Q1", answer := "A1",
    media := [], timer_seconds := 30 }

def cat1 : Category := { id := "c1", name := "History", questions := [q1] }

def st_play : SessionState :=
  { board := { title := "Jeopardy!", categories := [cat1] },
    used_qids := {"q1"}, active_qid := some "q1", reveal_answer := false,
    scores := [], team_colors := [] }

/-- C2 (code bug): removing the category that contains the used and active
question `q1` deletes the category, but `q1` survives in `used_qids` — the
pruning filter runs against the board *before* the category is dropped, so
every contained id is still found — and `active_qid` is never cleared,
contradicting the handler's own comment "Remove category and any
active/used references". -/
theorem remove_category_keeps_stale_refs :
    (remove_category st_play "c1").board.categories = [] ∧
    (remove_category st_play "c1").used_qids = {"q1"} ∧
    (remove_category st_play "c1").active_qid = some "q1" := by
  refine ⟨by decide, by decide, by decide⟩

/-- Counterexample to C3: deleting the question `q1` while it is the active
question leaves `active_qid` pointing at it instead of clearing it. -/
theorem remove_question_keeps_active :
    (remove_question st_play "q1").active_qid ≠ none := by
  decide

/-- C3 (amended): the delete-question handler removes the question from its
owning category's list and discards its id from `used_qids`, but leaves
`active_qid` unchanged even when it names the deleted question (the stale
id is simply never rendered afterwards); `reveal_answer` and the scoreboard
are untouched. -/
theorem remove_question_spec (st : SessionState) (qid : String)
    (cat : Category) (q : Question)
    (h : find_question st.board qid = some (cat, q)) :
    (∀ c ∈ (remove_question st qid).board.categories,
        c.id = cat.id → q ∉ c.questions) ∧
    (remove_question st qid).used_qids = st.used_qids.erase q.id ∧
    (remove_question st qid).active_qid = st.active_qid ∧
    (remove_question st qid).reveal_answer = st.reveal_answer ∧
    (remove_question st qid).scores = st.scores := by
  refine ⟨?_, by simp [remove_question, h], by simp [remove_question, h],
          by simp [remove_question, h], by simp [remove_question, h]⟩
  intro c hc hid
  simp only [remove_question, h, List.mem_map] at hc
  obtain ⟨c0, _, rfl⟩ := hc
  by_cases h0 : c0.id = cat.id
  · rw [if_pos h0]
    intro hq
    rcases List.mem_filter.mp hq with ⟨-, hdec⟩
    simp at hdec
  · rw [if_neg h0] at hid
    exact absurd hid h0

/-! ## Play-session state machine (C6, C7, C9) -/

/-- C6: selecting an unused question and then marking it used leaves its id
in `used_qids` with `active_qid` cleared and `reveal_answer` false; in that
state the question's button is disabled and the select intent is a no-op,
until `reset_used` empties the used set and re-enables it. -/
theorem select_then_mark_used_spec (st : SessionState) (q : String)
    (h : q ∉ st.used_qids) :
    q ∈ (mark_used (select_question st q) q).used_qids ∧
    (mark_used (select_question st q) q).active_qid = none ∧
    (mark_used (select_question st q) q).reveal_answer = false ∧
    question_disabled (mark_used (select_question st q) q) q = true ∧
    select_question (mark_used (select_question st q) q) q =
      mark_used (select_question st q) q ∧
    (reset_used (mark_used (select_question st q) q)).used_qids = ∅ ∧
    question_disabled (reset_used (mark_used (select_question st q) q)) q = false := by
  refine ⟨Finset.mem_insert_self q _, rfl, rfl, ?_, ?_, rfl, ?_⟩
  · simp [question_disabled, mark_used]
  · simp [select_question, mark_used]
  · simp [question_disabled, reset_used]

/-- Witness for C6 on the fresh session state. -/
theorem select_then_mark_used_spec_witness :
    "q1" ∉ st0.used_qids ∧
    ("q1" ∈ (mark_used (select_question st0 "q1") "q1").used_qids ∧
     (mark_used (select_question st0 "q1") "q1").active_qid = none ∧
     (mark_used (select_question st0 "q1") "q1").reveal_answer = false ∧
     question_disabled (mark_used (select_question st0 "q1") "q1") "q1" = true ∧
     select_question (mark_used (select_question st0 "q1") "q1") "q1" =
       mark_used (select_question st0 "q1") "q1" ∧
     (reset_used (mark_used (select_question st0 "q1") "q1")).used_qids = ∅ ∧
     question_disabled (reset_used (mark_used (select_question st0 "q1") "q1")) "q1" = false) :=
  ⟨by decide, select_then_mark_used_spec st0 "q1" (by decide)⟩

theorem find_in_update (qid : String) (f : Question → Question)
    (hf : ∀ q : Question, (f q).id = q.id) :
    ∀ (qs : List Question) (q : Question), find_in_questions qid qs = some q →
      find_in_questions qid (update_question_in_list qid f qs) = some (f q) := by
  intro qs
  induction qs with
  | nil => intro q hq; exact absurd hq (by simp [find_in_questions])
  | cons x xs ih =>
    intro q hq
    by_cases hx : x.id = qid
    · rw [find_in_questions, if_pos hx] at hq
      cases hq
      rw [update_question_in_list, if_pos hx, find_in_questions,
          if_pos (by rw [hf]; exact hx)]
    · rw [find_in_questions, if_neg hx] at hq
      rw [update_question_in_list, if_neg hx, find_in_questions, if_neg hx]
      exact ih q hq

theorem find_cats_update (qid : String) (f : Question → Question)
    (hf : ∀ q : Question, (f q).id = q.id) :
    ∀ (cs : List Category) (cat : Category) (q : Question),
      find_question_cats qid cs = some (cat, q) →
      find_question_cats qid (update_question_in_board qid f cs) =
        some ({ cat with questions := update_question_in_list qid f cat.questions }, f q) := by
  intro cs
  induction cs with
  | nil => intro cat q hq; exact absurd hq (by simp [find_question_cats])
  | cons c cs ih =>
    intro cat q hq
    cases hfind : find_in_questions qid c.questions with
    | some q0 =>
      simp only [find_question_cats, hfind] at hq
      injection hq with hq2
      injection hq2 with h1 h2
      subst h1
      subst h2
      simp only [update_question_in_board, hfind, find_question_cats,
                 find_in_update qid f hf c.questions q0 hfind]
    | none =>
      simp only [find_question_cats, hfind] at hq
      simp only [update_question_in_board, hfind, find_question_cats]
      exact ih cat q hq

/-- C7: for the active question `q`, pressing "Start Timer" with duration
`t` first writes `t` into `q`'s persisted `timer_seconds` field (so the
chosen duration survives a later save), and once the countdown loop reaches
zero the handler adds `q.id` to `used_qids`, clears `active_qid` and sets
`reveal_answer` to false. -/
theorem start_timer_spec (st : SessionState) (qid : String)
    (cat : Category) (q : Question) (t : Int)
    (ha : st.active_qid = some qid)
    (hfq : find_question st.board qid = some (cat, q)) :
    (find_question (start_timer st t).board qid).map Prod.snd =
      some { q with timer_seconds := t } ∧
    qid ∈ (start_timer st t).used_qids ∧
    (start_timer st t).active_qid = none ∧
    (start_timer st t).reveal_answer = false := by
  have hfq' : find_question_cats qid st.board.categories = some (cat, q) := hfq
  have hup := find_cats_update qid (fun q => { q with timer_seconds := t })
    (fun _ => rfl) st.board.categories cat q hfq'
  refine ⟨?_, ?_, ?_, ?_⟩ <;>
    simp [start_timer, ha, find_question, hfq', hup]

/-- Witness for C7: starting a 45-second timer on the active question of
the one-question board. -/
theorem start_timer_spec_witness :
    st_play.active_qid = some "q1" ∧
    find_question st_play.board "q1" = some (cat1, q1) ∧
    ((find_question (start_timer st_play 45).board "q1").map Prod.snd =
       some { q1 with timer_seconds := 45 } ∧
     "q1" ∈ (start_timer st_play 45).used_qids ∧
     (start_timer st_play 45).active_qid = none ∧
     (start_timer st_play 45).reveal_answer = false) :=
  ⟨rfl, rfl, start_timer_spec st_play "q1" cat1 q1 45 rfl rfl⟩

/-- C9: "Reset Used Questions" empties `used_qids`, clears `active_qid`,
sets `reveal_answer` to false, and leaves everything else — the board with
all its titles, categories, questions and media, and the scoreboard with
its colors — exactly as it was. -/
theorem reset_used_frame (st : SessionState) :
    (reset_used st).used_qids = ∅ ∧
    (reset_used st).active_qid = none ∧
    (reset_used st).reveal_answer = false ∧
    (reset_used st).board = st.board ∧
    (reset_used st).scores = st.scores ∧
    (reset_used st).team_colors = st.team_colors :=
  ⟨rfl, rfl, rfl, rfl, rfl, rfl⟩

/-! ## Display ordering (C5) -/

theorem points_desc_trans :
    ∀ a b c : Question, points_desc a b → points_desc b c → points_desc a c := by
  intro a b c hab hbc
  simp only [points_desc, decide_eq_true_eq] at *
  exact le_trans hbc hab

theorem points_desc_total : ∀ a b : Question, points_desc a b || points_desc b a := by
  intro a b
  simp only [points_desc, Bool.or_eq_true, decide_eq_true_eq]
  exact Int.le_total b.points a.points

/-- C5: within a category the displayed questions are ordered by `points`
descending; for any point value `p`, the equal-point questions appear in
their original insertion order (the displayed list filtered to `p` equals
the authored list filtered to `p`, so the sort is stable); the display is a
permutation of the authored list; and rendering leaves the board — hence
every category's underlying `questions` list — unchanged. -/
theorem display_order_spec (c : Category) (p : Int) :
    (display_order c).Pairwise (fun a b => b.points ≤ a.points) ∧
    (display_order c).filter (fun q => decide (q.points = p)) =
      c.questions.filter (fun q => decide (q.points = p)) ∧
    (display_order c).Perm c.questions ∧
    ∀ b : Board, (render_sorted b).fst = b := by
  refine ⟨?_, ?_, List.mergeSort_perm c.questions points_desc, fun _ => rfl⟩
  · have hs := List.sorted_mergeSort points_desc_trans points_desc_total c.questions
    exact hs.imp (fun h => by simpa [points_desc] using h)
  · have hmem : ∀ q ∈ c.questions.filter (fun q => decide (q.points = p)), q.points = p :=
      fun q hq => by simpa using (List.mem_filter.mp hq).2
    have hpw : (c.questions.filter (fun q => decide (q.points = p))).Pairwise
        (fun a b => points_desc a b = true) :=
      List.pairwise_of_forall_mem_list (fun a ha b hb => by
        simp [points_desc, hmem a ha, hmem b hb])
    have hsub : List.Sublist (c.questions.filter (fun q => decide (q.points = p)))
        (c.questions.mergeSort points_desc) :=
      List.sublist_mergeSort points_desc_trans points_desc_total hpw
        (List.filter_sublist _)
    have hsubf := hsub.filter (fun q => decide (q.points = p))
    rw [List.filter_eq_self.mpr (fun a ha => (List.mem_filter.mp ha).2)] at hsubf
    have hperm := (List.mergeSort_perm c.questions points_desc).filter
      (fun q => decide (q.points = p))
    exact (hsubf.eq_of_length (hperm.length_eq.symm)).symm

/-! ## Scoreboard (C8) -/

theorem lookup_append_none {β : Type} (l1 l2 : List (String × β)) (k : String)
    (h : l1.lookup k = none) : (l1 ++ l2).lookup k = l2.lookup k := by
  induction l1 with
  | nil => rfl
  | cons kv tl ih =>
    obtain ⟨a, b⟩ := kv
    rw [List.cons_append]
    simp only [List.lookup] at h ⊢
    cases hbeq : (k == a) with
    | true => simp [hbeq] at h
    | false => simp only [hbeq] at h ⊢; exact ih h

theorem lookup_map_adjust (l : List (String × Int)) (t : String) (d : Int) :
    (l.map (fun kv => if kv.1 = t then (kv.1, kv.2 + d) else kv)).lookup t =
      (l.lookup t).map (· + d) := by
  induction l with
  | nil => rfl
  | cons kv tl ih =>
    obtain ⟨a, b⟩ := kv
    by_cases ha : a = t
    · subst ha
      rw [List.map_cons, if_pos rfl]
      simp [List.lookup]
    · rw [List.map_cons, if_neg ha]
      have hbeq : (t == a) = false := beq_eq_false_iff_ne.mpr (Ne.symm ha)
      simp only [List.lookup, hbeq]
      exact ih

theorem lookup_filter_ne {β : Type} (l : List (String × β)) (t : String) :
    (l.filter (fun kv => kv.1 ≠ t)).lookup t = none := by
  induction l with
  | nil => rfl
  | cons kv tl ih =>
    obtain ⟨a, b⟩ := kv
    by_cases ha : a = t
    · subst ha
      rw [List.filter_cons_of_neg (by simp)]
      exact ih
    · rw [List.filter_cons_of_pos (by simp [ha])]
      have hbeq : (t == a) = false := beq_eq_false_iff_ne.mpr (Ne.symm ha)
      simp only [List.lookup, hbeq]
      exact ih

theorem inc_score_present (st : SessionState) (team : String) (v d : Int)
    (h : st.scores.lookup team = some v) :
    (inc_score st team d).scores.lookup team = some (v + d) := by
  have hcond : (st.scores.lookup team).isSome = true := by rw [h]; rfl
  rw [inc_score, if_pos hcond]
  show (st.scores.map _).lookup team = some (v + d)
  rw [lookup_map_adjust, h]
  rfl

/-- `"A".strip()` is `"A"`: evaluation of `String.trim`, whose auxiliary
functions recurse by well-founded byte positions and so need their equation
lemmas spelled out. -/
theorem trim_A : "A".trim = "A" := by
  simp only [String.trim, Substring.trim, String.toSubstring, Substring.toString]
  rw [Substring.takeWhileAux, Substring.takeWhileAux]
  simp +decide [String.next, String.get, String.utf8GetAux, Char.isWhitespace,
                String.endPos, String.utf8ByteSize]
  rw [Substring.takeRightWhileAux]
  simp +decide [String.prev, String.get, String.utf8GetAux, String.utf8PrevAux,
                Char.isWhitespace, String.extract]

/-- C8: with the stripped team name `name` not yet on the scoreboard,
`add_team` starts it at score 0 and records its color; two `inc_score`
calls of +100 and −300 leave the score at −200 (deltas accumulate with no
floor); `inc_score` on an absent team is a no-op that raises nothing;
`remove_team` deletes the team from both the score and the color mapping,
and is a no-op on an absent team. -/
theorem scoreboard_spec (st : SessionState) (name color t : String) (d : Int)
    (hname : name.trim = name) (hne : name ≠ "")
    (hs : st.scores.lookup name = none)
    (hc : st.team_colors.lookup name = none)
    (ht : st.scores.lookup t = none) :
    (add_team st name color).scores.lookup name = some 0 ∧
    (add_team st name color).team_colors.lookup name = some color ∧
    (inc_score (inc_score (add_team st name color) name 100) name (-300)).scores.lookup name
      = some (-200) ∧
    inc_score st t d = st ∧
    (remove_team (add_team st name color) name).scores.lookup name = none ∧
    (remove_team (add_team st name color) name).team_colors.lookup name = none ∧
    remove_team st t = st := by
  have hadd : add_team st name color =
      { st with scores := st.scores ++ [(name, 0)],
                team_colors := st.team_colors ++ [(name, color)] } := by
    simp only [add_team, hname]
    rw [if_pos (And.intro hne hs), if_pos hc]
  have hl0 : (add_team st name color).scores.lookup name = some 0 := by
    rw [hadd]
    show (st.scores ++ [(name, (0 : Int))]).lookup name = some (0 : Int)
    rw [lookup_append_none _ _ _ hs]
    simp [List.lookup]
  have hlc : (add_team st name color).team_colors.lookup name = some color := by
    rw [hadd]
    show (st.team_colors ++ [(name, color)]).lookup name = some color
    rw [lookup_append_none _ _ _ hc]
    simp [List.lookup]
  have h1 := inc_score_present (add_team st name color) name 0 100 hl0
  have h2 := inc_score_present _ name (0 + 100) (-300) h1
  have hrm : remove_team (add_team st name color) name =
      { add_team st name color with
        scores := (add_team st name color).scores.filter (fun kv => kv.1 ≠ name),
        team_colors := (add_team st name color).team_colors.filter (fun kv => kv.1 ≠ name) } := by
    rw [remove_team, if_pos (by rw [hl0]; rfl)]
  refine ⟨hl0, hlc, ?_, ?_, ?_, ?_, ?_⟩
  · rw [h2]
    norm_num
  · rw [inc_score, if_neg]
    rw [ht]
    simp
  · rw [hrm]
    exact lookup_filter_ne _ _
  · rw [hrm]
    exact lookup_filter_ne _ _
  · rw [remove_team, if_neg]
    rw [ht]
    simp

/-- Witness for C8 starting from the empty scoreboard. -/
theorem scoreboard_spec_witness :
    ("A".trim = "A" ∧ "A" ≠ "" ∧ st0.scores.lookup "A" = none ∧
     st0.team_colors.lookup "A" = none ∧ st0.scores.lookup "B" = none) ∧
    ((add_team st0 "A" "#fff").scores.lookup "A" = some 0 ∧
     (add_team st0 "A" "#fff").team_colors.lookup "A" = some "#fff" ∧
     (inc_score (inc_score (add_team st0 "A" "#fff") "A" 100) "A" (-300)).scores.lookup "A"
       = some (-200) ∧
     inc_score st0 "B" 50 = st0 ∧
     (remove_team (add_team st0 "A" "#fff") "A").scores.lookup "A" = none ∧
     (remove_team (add_team st0 "A" "#fff") "A").team_colors.lookup "A" = none ∧
     remove_team st0 "B" = st0) :=
  ⟨⟨trim_A, by decide, rfl, rfl, rfl⟩,
   scoreboard_spec st0 "A" "#fff" "B" 50 trim_A (by decide) rfl rfl rfl⟩

/-- Witness for C3's amended theorem on the concrete one-question board. -/
theorem remove_question_spec_witness :
    find_question st_play.board "q1" = some (cat1, q1) ∧
    ((∀ c ∈ (remove_question st_play "q1").board.categories,
        c.id = cat1.id → q1 ∉ c.questions) ∧
     (remove_question st_play "q1").used_qids = st_play.used_qids.erase q1.id ∧
     (remove_question st_play "q1").active_qid = st_play.active_qid ∧
     (remove_question st_play "q1").reveal_answer = st_play.reveal_answer ∧
     (remove_question st_play "q1").scores = st_play.scores) :=
  ⟨rfl, remove_question_spec st_play "q1" cat1 q1 rfl⟩
